import Mathlib

/-!
Verification of the gopherbouncemysql repository: a MySQL binding for the
gopherbouncedb storage abstraction.  We embed the SQL template constants
(mysqlqueries.go), the query builder and dialect bridge (sql.go) and the
test configuration helper (mysql_test.go) as executable Lean definitions
and prove the stated properties about them.

Strings are modelled as Lean strings; the template replacer of the external
gopherbouncedb library is modelled from the specification as a single-pass,
leftmost-match substitution (each placeholder token is replaced exactly
once per statement build, and substituted text is not rescanned), matching
the semantics of a replacer built from a token-to-value dictionary.
-/

namespace GopherBounceMySQL

/-! ## SQL template constants (mysqlqueries.go) -/

def MySQLUsersInit : String :=
  "CREATE TABLE IF NOT EXISTS $USERS_TABLE_NAME$ (\nid BIGINT AUTO_INCREMENT,\nusername VARCHAR(150) NOT NULL UNIQUE,\npassword VARCHAR(270) NOT NULL,\nemail VARCHAR(254) NOT NULL $EMAIL_UNIQUE$,\nfirst_name VARCHAR(50) NOT NULL,\nlast_name VARCHAR(150) NOT NULL,\nis_superuser BOOL NOT NULL,\nis_staff BOOL NOT NULL,\nis_active BOOL NOT NULL,\ndate_joined DATETIME NOT NULL,\nlast_login DATETIME NOT NULL,\nPRIMARY KEY(id)\n);\n"

def MySQLQueryUserID : String :=
  "SELECT * FROM $USERS_TABLE_NAME$ WHERE id=?;"

def MySQLQueryUsername : String :=
  "SELECT * FROM $USERS_TABLE_NAME$ WHERE username=?;"

def MySQLQueryUserEmail : String :=
  "SELECT * FROM $USERS_TABLE_NAME$ WHERE email=?;"

def MySQLInsertUser : String :=
  "INSERT INTO $USERS_TABLE_NAME$(\nusername, password, email, first_name, last_name, is_superuser, is_staff,\nis_active, date_joined, last_login)\nVALUES(?, ?, ?, ?, ?, ?, ?, ?, ?, ?);"

def MySQLUpdateUser : String :=
  "UPDATE $USERS_TABLE_NAME$\nSET username=?, password=?, email=?, first_name=?, last_name=?,\n\tis_superuser=?, is_staff=?, is_active=?, date_joined=?, last_login=?\nWHERE id=?;"

def MySQLDeleteUser : String :=
  "DELETE FROM $USERS_TABLE_NAME$ WHERE id=?;"

def MySQLUpdateUserFields : String :=
  "UPDATE $USERS_TABLE_NAME$\nSET $UPDATE_CONTENT$\nWHERE id=?;"

/-! ## Template replacer (modelled from the spec)

The replacer of gopherbouncedb is a dictionary from placeholder tokens to
replacement strings.  `Apply` substitutes the tokens in a single
left-to-right pass: at each position the first matching (nonempty) key of
the dictionary is replaced by its value and scanning resumes after the
consumed key; replacement text is never rescanned.  This follows the
specification: string tokens are replaced exactly once per statement
build. -/

/-- A replacer dictionary: an association list from placeholder tokens to
replacement text.  Lookup takes the first entry with a matching key. -/
abbrev ReplDict := List (String × String)

/-- Insert or overwrite a single key in the dictionary, as assignment to a
map key does in Go. -/
def setEntry : ReplDict → String × String → ReplDict
  | [], kv => [kv]
  | (k, v) :: rest, kv =>
    if k = kv.1 then (k, kv.2) :: rest else (k, v) :: setEntry rest kv

/-- Modelled from the spec: `SQLTemplateReplacer.UpdateDict` merges the
given mapping into the dictionary, overwriting existing keys and adding
new ones. -/
def updateDict (dict upd : ReplDict) : ReplDict :=
  upd.foldl setEntry dict

/-- First dictionary entry whose (nonempty) key is a prefix of `s`. -/
def findMatch (dict : ReplDict) (s : List Char) : Option (String × String) :=
  dict.find? (fun kv => !kv.1.isEmpty && kv.1.data.isPrefixOf s)

/-- Fuel-driven single-pass substitution over a character list.  The fuel
is an upper bound on the number of emitted segments; `applyRepl` always
supplies the length of the input, which suffices because every step
consumes at least one character. -/
def applyReplFuel (dict : ReplDict) : Nat → List Char → List Char
  | 0, _ => []
  | _ + 1, [] => []
  | n + 1, c :: rest =>
    match findMatch dict (c :: rest) with
    | some kv => kv.2.data ++ applyReplFuel dict n ((c :: rest).drop kv.1.data.length)
    | none => c :: applyReplFuel dict n rest

/-- Modelled from the spec: substitution of placeholder tokens by the
configured values, single pass, leftmost match, no rescanning of
substituted text. -/
def applyRepl (dict : ReplDict) (s : List Char) : List Char :=
  applyReplFuel dict s.length s

/-- Modelled from the spec: `SQLTemplateReplacer.Apply` on strings. -/
def applyReplS (dict : ReplDict) (s : String) : String :=
  String.mk (applyRepl dict s.data)

/-- Modelled from the spec: the default replacement dictionary of
`gopherbouncedb.DefaultSQLReplacer` (default table names as dropped by the
test suite, and the unique-email toggle). -/
def defaultSQLDict : ReplDict :=
  [("$USERS_TABLE_NAME$", "auth_user"),
   ("$SESSION_TABLE_NAME$", "auth_session"),
   ("$EMAIL_UNIQUE$", "UNIQUE")]

/-- Modelled from the spec: `gopherbouncedb.DefaultUserRowNames`, the fixed
mapping from logical field names of the user model to physical column
names (the spec gives the example "IsActive" to "is_active"; the columns
are those of the users DDL). -/
def DefaultMySQLUserRowNames : List (String × String) :=
  [("ID", "id"),
   ("Username", "username"),
   ("Password", "password"),
   ("EMail", "email"),
   ("FirstName", "first_name"),
   ("LastName", "last_name"),
   ("IsSuperUser", "is_superuser"),
   ("IsStaff", "is_staff"),
   ("IsActive", "is_active"),
   ("DateJoined", "date_joined"),
   ("LastLogin", "last_login")]

/-! ## Query builder (sql.go) -/

/-- The statement bundle built by `NewMySQLUserQueries` (sql.go). -/
structure MySQLUserQueries where
  InitS : List String
  GetUserS : String
  GetUserByNameS : String
  GetUserByEmailS : String
  InsertUserS : String
  UpdateUserS : String
  DeleteUserS : String
  UpdateFieldsS : String
  Replacer : ReplDict
  RowNames : List (String × String)

/-- `NewMySQLUserQueries` (sql.go): take the default replacer, merge the
caller mapping into it, and apply it to every user template.  The Go
`nil` map is the empty list here: merging it is a no-op either way. -/
def NewMySQLUserQueries (replaceMapping : ReplDict) : MySQLUserQueries :=
  let replacer := updateDict defaultSQLDict replaceMapping
  { InitS := [applyReplS replacer MySQLUsersInit]
    GetUserS := applyReplS replacer MySQLQueryUserID
    GetUserByNameS := applyReplS replacer MySQLQueryUsername
    GetUserByEmailS := applyReplS replacer MySQLQueryUserEmail
    InsertUserS := applyReplS replacer MySQLInsertUser
    UpdateUserS := applyReplS replacer MySQLUpdateUser
    DeleteUserS := applyReplS replacer MySQLDeleteUser
    UpdateFieldsS := applyReplS replacer MySQLUpdateUserFields
    Replacer := replacer
    RowNames := DefaultMySQLUserRowNames }

/-- `SupportsUserFields` (sql.go): a dynamic update template was
configured. -/
def SupportsUserFields (q : MySQLUserQueries) : Bool :=
  q.UpdateFieldsS != ""

/-- The panic message of `UpdateUser` for an unresolved field name. -/
def invalidFieldMsg (fieldName : String) : String :=
  "invalid field name \"" ++ fieldName ++ "\": Must be a valid field name of gopherbouncedb.UserModel"

/-- The per-field loop of `UpdateUser`: look every field name up in
`RowNames` and build the `column=?` clauses; the Go panic on the first
unresolved name is an `Except.error` carrying the panic message. -/
def buildUpdates (rowNames : List (String × String)) : List String → Except String (List String)
  | [] => .ok []
  | f :: rest =>
    match rowNames.lookup f with
    | some colName => (buildUpdates rowNames rest).map (fun us => (colName ++ "=?") :: us)
    | none => .error (invalidFieldMsg f)

/-- `strings.Join` with a separator. -/
def joinStrings (sep : String) : List String → String
  | [] => ""
  | [s] => s
  | s :: rest => s ++ (sep ++ joinStrings sep rest)

/-- `strings.Replace(s, pat, repl, 1)` on character lists for a nonempty
pattern: replace the first occurrence of `pat`, leave `s` unchanged when
`pat` does not occur. -/
def replaceFirst : List Char → List Char → List Char → List Char
  | [], pat, repl => if pat.isPrefixOf ([] : List Char) then repl else []
  | c :: rest, pat, repl =>
    if pat.isPrefixOf (c :: rest) then repl ++ (c :: rest).drop pat.length
    else c :: replaceFirst rest pat repl

/-- `strings.Replace(s, pat, repl, 1)` on strings. -/
def replaceFirstS (s pat repl : String) : String :=
  String.mk (replaceFirst s.data pat.data repl.data)

/-- `UpdateUser` (sql.go): with no requested fields or no configured
partial-update template, return the full-update statement; otherwise build
one `column=?` clause per requested field (failing on an unresolved name),
comma-join them and substitute the result for the first occurrence of
`$UPDATE_CONTENT$` in the partial-update template. -/
def UpdateUser (q : MySQLUserQueries) (fields : List String) : Except String String :=
  if fields.length == 0 || !(SupportsUserFields q) then .ok q.UpdateUserS
  else
    match buildUpdates q.RowNames fields with
    | .error e => .error e
    | .ok updates =>
      .ok (replaceFirstS q.UpdateFieldsS "$UPDATE_CONTENT$" (joinStrings "," updates))

/-! ## Dialect bridge (sql.go) -/

/-- The MySQL duplicate-key error number. -/
def MySQLKeyExists : Nat := 1062

/-- A Go `error` value as seen by the bridge: either a
`*mysql.MySQLError` carrying a numeric driver code, or any other error. -/
inductive GoError where
  | mysqlError (number : Nat) (message : String)
  | other (message : String)
deriving DecidableEq

/-- `IsDuplicateInsert` (sql.go): the error is a `*mysql.MySQLError` whose
number is the duplicate-key code. -/
def IsDuplicateInsert : GoError → Bool
  | .mysqlError n _ => n == MySQLKeyExists
  | .other _ => false

/-- `IsDuplicateUpdate` (sql.go): same check as `IsDuplicateInsert`. -/
def IsDuplicateUpdate : GoError → Bool
  | .mysqlError n _ => n == MySQLKeyExists
  | .other _ => false

/-- An abstract `time.Time` value (only identity of the value matters to
the bridge). -/
structure GoTime where
  val : Int
deriving DecidableEq

/-- The zero `time.Time` value. -/
def zeroTime : GoTime := ⟨0⟩

/-- `mysql.NullTime`: a time together with a validity flag; `Valid = false`
represents a SQL NULL. -/
structure NullTime where
  Time : GoTime
  Valid : Bool
deriving DecidableEq

/-- The dynamic value handed to `ConvertTimeScanType`: a pointer to a
`mysql.NullTime`, a `mysql.NullTime` value, or a value of any other type
(represented by its type name, as printed by `reflect.TypeOf`). -/
inductive ScanValue where
  | nullTimePtr (nt : NullTime)
  | nullTimeVal (nt : NullTime)
  | otherVal (typeName : String)
deriving DecidableEq

/-- `TimeScanType` (sql.go): a fresh zero `mysql.NullTime` scan target. -/
def TimeScanType : NullTime := ⟨zeroTime, false⟩

/-- The error message for a NULL datetime. -/
def nullDatetimeMsg : String :=
  "MySQLBridge.ConvertScanType: got NULL datetime, expected to be not NULL"

/-- The error message for a value of the wrong dynamic type. -/
def wrongTypeMsg (typeName : String) : String :=
  "MySQLBridge.ConvertScanType: Expected value of *mysql.NullTime, got " ++ typeName

/-- `ConvertTimeScanType` (sql.go), returning the Go pair
`(time.Time, error)`: the time of a valid `NullTime` with no error, the
zero time with a descriptive error on NULL, and the zero time with a type
error for any other dynamic type. -/
def ConvertTimeScanType : ScanValue → GoTime × Option String
  | .nullTimePtr nt =>
    if nt.Valid then (nt.Time, none) else (zeroTime, some nullDatetimeMsg)
  | .nullTimeVal nt =>
    if nt.Valid then (nt.Time, none) else (zeroTime, some nullDatetimeMsg)
  | .otherVal typeName => (zeroTime, some (wrongTypeMsg typeName))

/-- `ConvertTime` (sql.go): identity conversion for parameter binding. -/
def ConvertTime (t : GoTime) : GoTime := t

/-! ## Test configuration (mysql_test.go) -/

/-- `os.Getenv` semantics: an environment is a total map from variable
names to values, where an unset variable reads as the empty string. -/
abbrev GoEnv := String → String

/-- `setupPostgreConfigString` (mysql_test.go): read the five MYSQL_*
variables, fall back to the defaults on empty, and compose the connection
string `user:pw@tcp(host:port)/dbName`. -/
def setupPostgreConfigString (env : GoEnv) : String :=
  let host := if env "MYSQL_HOST" = "" then "localhost" else env "MYSQL_HOST"
  let port := if env "MYSQL_PORT" = "" then "3306" else env "MYSQL_PORT"
  let user := if env "MYSQL_USER" = "" then "mysql" else env "MYSQL_USER"
  let pw := if env "MYSQL_PASS" = "" then "password" else env "MYSQL_PASS"
  let dbName := if env "MYSQL_DBNAME" = "" then "mysql" else env "MYSQL_DBNAME"
  user ++ (":" ++ (pw ++ ("@tcp(" ++ (host ++ (":" ++ (port ++ (")/" ++ dbName)))))))

/-- An environment assigning the five MYSQL_* variables and leaving every
other variable unset. -/
def envOf (host port user pw dbName : String) : GoEnv := fun k =>
  if k = "MYSQL_HOST" then host
  else if k = "MYSQL_PORT" then port
  else if k = "MYSQL_USER" then user
  else if k = "MYSQL_PASS" then pw
  else if k = "MYSQL_DBNAME" then dbName
  else ""

/-! ## Helper lemmas -/

set_option maxRecDepth 10000

/-- When every requested field resolves, the per-field loop produces one
assignment clause per field, in order. -/
theorem buildUpdates_ok (rn : List (String × String)) (fields : List String)
    (h : ∀ f ∈ fields, (rn.lookup f).isSome) :
    buildUpdates rn fields =
      .ok (fields.map (fun f => ((rn.lookup f).getD "") ++ "=?")) := by
  induction fields with
  | nil => rfl
  | cons f rest ih =>
    have hf := h f (List.mem_cons_self f rest)
    obtain ⟨col, hcol⟩ := Option.isSome_iff_exists.mp hf
    have hrest := ih (fun g hg => h g (List.mem_cons_of_mem f hg))
    simp [buildUpdates, hcol, hrest, Except.map]

/-- When some requested field does not resolve, the per-field loop fails
with the invalid-field message of the first such field. -/
theorem buildUpdates_err (rn : List (String × String)) (fields : List String)
    (h : ∃ f ∈ fields, rn.lookup f = none) :
    ∃ g, g ∈ fields ∧ rn.lookup g = none ∧
      buildUpdates rn fields = .error (invalidFieldMsg g) := by
  induction fields with
  | nil => simp at h
  | cons f rest ih =>
    cases hf : rn.lookup f with
    | none =>
      exact ⟨f, List.mem_cons_self f rest, hf, by simp [buildUpdates, hf]⟩
    | some col =>
      have hrest : ∃ g ∈ rest, rn.lookup g = none := by
        obtain ⟨g, hg, hgn⟩ := h
        rcases List.mem_cons.mp hg with hgf | hgr
        · rw [hgf] at hgn; rw [hgn] at hf; cases hf
        · exact ⟨g, hgr, hgn⟩
      obtain ⟨g, hg, hgn, hb⟩ := ih hrest
      exact ⟨g, List.mem_cons_of_mem f hg, hgn,
        by simp [buildUpdates, hf, hb, Except.map]⟩

/-- Substituting the dynamic clause list into the concrete partial-update
statement of the default builder. -/
theorem replaceFirst_updateFieldsS (u : String) :
    replaceFirstS (NewMySQLUserQueries []).UpdateFieldsS "$UPDATE_CONTENT$" u =
      "UPDATE auth_user\nSET " ++ (u ++ "\nWHERE id=?;") := by
  cases u
  rfl

/-! ## Claim theorems -/

/-- Claim C1: whenever the partial-update builder is given a field name
that does not resolve through the field-to-column mapping (and a dynamic
update template is configured, so the partial path is taken), `UpdateUser`
fails with the invalid-field error of the first unresolved field and emits
no SQL. -/
theorem updateUser_unresolved_field_fails (q : MySQLUserQueries)
    (fields : List String) (hsupp : q.UpdateFieldsS ≠ "")
    (hbad : ∃ f ∈ fields, q.RowNames.lookup f = none) :
    ∃ g, g ∈ fields ∧ q.RowNames.lookup g = none ∧
      UpdateUser q fields = Except.error (invalidFieldMsg g) := by
  obtain ⟨g, hg, hgn, hb⟩ := buildUpdates_err q.RowNames fields hbad
  refine ⟨g, hg, hgn, ?_⟩
  have hne : fields ≠ [] := by
    rintro rfl
    exact absurd hg (List.not_mem_nil g)
  have hlen : (fields.length == 0) = false := by
    simp only [beq_eq_false_iff_ne, ne_eq, List.length_eq_zero]
    exact hne
  have hs : (!(SupportsUserFields q)) = false := by
    simp [SupportsUserFields, hsupp]
  simp [UpdateUser, hlen, hs, hb]

/-- Closed witness for C1: the default queries with the unresolved field
name Bogus. -/
theorem updateUser_unresolved_field_fails_witness :
    ∃ g, g ∈ ["Bogus"] ∧ (NewMySQLUserQueries []).RowNames.lookup g = none ∧
      UpdateUser (NewMySQLUserQueries []) ["Bogus"] =
        Except.error (invalidFieldMsg g) :=
  updateUser_unresolved_field_fails (NewMySQLUserQueries []) ["Bogus"]
    (by decide) ⟨"Bogus", by decide, by decide⟩

/-- Claim C2: for a nonempty list of field names that all resolve through
the mapping, the default builder produces exactly one assignment clause
per field, comma-joined, substituted once into the partial-update
template, with the concrete prefix and suffix of that template around it
(so no placeholder token remains: the surrounding text is explicit and no
column name of the mapping contains a placeholder delimiter). -/
theorem updateUser_partial_update_shape (fields : List String)
    (hne : fields ≠ [])
    (hall : ∀ f ∈ fields, (DefaultMySQLUserRowNames.lookup f).isSome) :
    UpdateUser (NewMySQLUserQueries []) fields =
      Except.ok ("UPDATE auth_user\nSET " ++
        (joinStrings ","
            (fields.map (fun f =>
              ((DefaultMySQLUserRowNames.lookup f).getD "") ++ "=?")) ++
          "\nWHERE id=?;")) ∧
    ∀ kv ∈ DefaultMySQLUserRowNames, ¬ '$' ∈ kv.2.data := by
  refine ⟨?_, by decide⟩
  have hb := buildUpdates_ok DefaultMySQLUserRowNames fields hall
  have hq : (NewMySQLUserQueries []).RowNames = DefaultMySQLUserRowNames := rfl
  have hlen : (fields.length == 0) = false := by
    simp only [beq_eq_false_iff_ne, ne_eq, List.length_eq_zero]
    exact hne
  have hs : (!(SupportsUserFields (NewMySQLUserQueries []))) = false := by decide
  rw [UpdateUser, hlen, hs, Bool.or_self, if_neg (by simp), hq, hb]
  exact congrArg Except.ok (replaceFirst_updateFieldsS _)

/-- Closed witness for C2: the fields IsActive and Username. -/
theorem updateUser_partial_update_shape_witness :
    ["IsActive", "Username"] ≠ ([] : List String) ∧
      UpdateUser (NewMySQLUserQueries []) ["IsActive", "Username"] =
        Except.ok "UPDATE auth_user\nSET is_active=?,username=?\nWHERE id=?;" := by
  refine ⟨by decide, ?_⟩
  have h := (updateUser_partial_update_shape ["IsActive", "Username"]
    (by decide) (by decide)).1
  rw [h]
  rfl

/-- Claim C3: with an empty partial-update template the builder always
returns the full-update statement, whatever fields are requested. -/
theorem updateUser_fallback_no_template (q : MySQLUserQueries)
    (fields : List String) (h : q.UpdateFieldsS = "") :
    UpdateUser q fields = Except.ok q.UpdateUserS := by
  have hs : (!(SupportsUserFields q)) = true := by
    simp [SupportsUserFields, h]
  simp [UpdateUser, hs]

/-- Closed witness for C3: the default queries with the template blanked
out still give the full update for a valid field request. -/
theorem updateUser_fallback_no_template_witness :
    ({ NewMySQLUserQueries [] with UpdateFieldsS := "" } :
        MySQLUserQueries).UpdateFieldsS = "" ∧
      UpdateUser { NewMySQLUserQueries [] with UpdateFieldsS := "" }
          ["Username"] =
        Except.ok ({ NewMySQLUserQueries [] with
          UpdateFieldsS := "" } : MySQLUserQueries).UpdateUserS :=
  ⟨rfl, updateUser_fallback_no_template
    { NewMySQLUserQueries [] with UpdateFieldsS := "" } ["Username"] rfl⟩

/-- Claim C9: an empty field list always yields the full-update statement,
also when partial updates are supported. -/
theorem updateUser_empty_fields_full_update (q : MySQLUserQueries) :
    UpdateUser q [] = Except.ok q.UpdateUserS := rfl

/-- Claim C4: insert-duplicate and update-duplicate classification agree
on every error value and hold exactly for a MySQL driver error whose code
is 1062; any other code, and any error without a code, is not a
duplicate. -/
theorem duplicate_classification_code_1062 (e : GoError) :
    IsDuplicateInsert e = IsDuplicateUpdate e ∧
      (IsDuplicateInsert e = true ↔ ∃ m, e = GoError.mysqlError 1062 m) := by
  cases e with
  | mysqlError n m =>
    refine ⟨rfl, ?_⟩
    simp [IsDuplicateInsert, MySQLKeyExists]
  | other m =>
    refine ⟨rfl, ?_⟩
    simp [IsDuplicateInsert]

/-- Claim C5: a valid nullable-time scan value holding t converts to t
with no error, through both the pointer and the value form; an invalid
(NULL) one converts to the zero time with the descriptive NULL error. -/
theorem convertTimeScanType_roundtrip_null_error (t : GoTime) :
    ConvertTimeScanType (ScanValue.nullTimePtr ⟨t, true⟩) = (t, none) ∧
      ConvertTimeScanType (ScanValue.nullTimeVal ⟨t, true⟩) = (t, none) ∧
      ConvertTimeScanType (ScanValue.nullTimePtr ⟨t, false⟩) =
        (zeroTime, some nullDatetimeMsg) ∧
      ConvertTimeScanType (ScanValue.nullTimeVal ⟨t, false⟩) =
        (zeroTime, some nullDatetimeMsg) :=
  ⟨rfl, rfl, rfl, rfl⟩

/-- Claim C10: a value of any other dynamic type converts to the zero
time together with a non-nil type-mismatch error naming the offending
type. -/
theorem convertTimeScanType_type_mismatch (typeName : String) :
    ConvertTimeScanType (ScanValue.otherVal typeName) =
        (zeroTime, some (wrongTypeMsg typeName)) ∧
      (ConvertTimeScanType (ScanValue.otherVal typeName)).2 ≠ none :=
  ⟨rfl, by simp [ConvertTimeScanType]⟩

/-- Claim C6, counterexample: substitution is not idempotent for every
replacement mapping.  With a mapping whose table-name value itself
contains the email-unique placeholder token, a second application of the
replacer substitutes further and changes the text. -/
theorem apply_twice_not_idempotent_cex :
    applyReplS (updateDict defaultSQLDict [("$USERS_TABLE_NAME$", "x$EMAIL_UNIQUE$")])
        (applyReplS
          (updateDict defaultSQLDict [("$USERS_TABLE_NAME$", "x$EMAIL_UNIQUE$")])
          "$USERS_TABLE_NAME$") ≠
      applyReplS (updateDict defaultSQLDict [("$USERS_TABLE_NAME$", "x$EMAIL_UNIQUE$")])
        "$USERS_TABLE_NAME$" := by
  decide

/-- Claim C6, amended: with the default mapping, applying the replacer
again to any of the statement strings built by the user query builder
leaves them byte-identical, since no default replacement value contains a
placeholder token. -/
theorem apply_idempotent_on_built_statements :
    applyReplS defaultSQLDict (applyReplS defaultSQLDict MySQLUsersInit) =
        applyReplS defaultSQLDict MySQLUsersInit ∧
      applyReplS defaultSQLDict (applyReplS defaultSQLDict MySQLQueryUserID) =
        applyReplS defaultSQLDict MySQLQueryUserID ∧
      applyReplS defaultSQLDict (applyReplS defaultSQLDict MySQLQueryUsername) =
        applyReplS defaultSQLDict MySQLQueryUsername ∧
      applyReplS defaultSQLDict (applyReplS defaultSQLDict MySQLQueryUserEmail) =
        applyReplS defaultSQLDict MySQLQueryUserEmail ∧
      applyReplS defaultSQLDict (applyReplS defaultSQLDict MySQLInsertUser) =
        applyReplS defaultSQLDict MySQLInsertUser ∧
      applyReplS defaultSQLDict (applyReplS defaultSQLDict MySQLUpdateUser) =
        applyReplS defaultSQLDict MySQLUpdateUser ∧
      applyReplS defaultSQLDict (applyReplS defaultSQLDict MySQLDeleteUser) =
        applyReplS defaultSQLDict MySQLDeleteUser ∧
      applyReplS defaultSQLDict (applyReplS defaultSQLDict MySQLUpdateUserFields) =
        applyReplS defaultSQLDict MySQLUpdateUserFields :=
  ⟨rfl, rfl, rfl, rfl, rfl, rfl, rfl, rfl⟩

/-- Claim C7: for every configured table-name value and every configured
email-unique value, the generated users DDL keeps the literal UNIQUE
constraint on the username column, while the text following the email
column declaration is exactly the configured email-unique value. -/
theorem usersInit_username_always_unique_email_toggle (vT vE : String) :
    (NewMySQLUserQueries
        [("$USERS_TABLE_NAME$", vT), ("$EMAIL_UNIQUE$", vE)]).InitS =
      ["CREATE TABLE IF NOT EXISTS " ++
        (vT ++
          (" (\nid BIGINT AUTO_INCREMENT,\nusername VARCHAR(150) NOT NULL UNIQUE,\npassword VARCHAR(270) NOT NULL,\nemail VARCHAR(254) NOT NULL " ++
            (vE ++
              ",\nfirst_name VARCHAR(50) NOT NULL,\nlast_name VARCHAR(150) NOT NULL,\nis_superuser BOOL NOT NULL,\nis_staff BOOL NOT NULL,\nis_active BOOL NOT NULL,\ndate_joined DATETIME NOT NULL,\nlast_login DATETIME NOT NULL,\nPRIMARY KEY(id)\n);\n")))] := by
  cases vT
  cases vE
  rfl

/-- Claim C8: the test configuration composes user, password, host, port
and database name into the connection string, taking the value of each
environment variable when set and nonempty, and the documented default
otherwise. -/
theorem setupPostgreConfigString_spec (host port user pw dbName : String)
    (hh : host ≠ "") (hp : port ≠ "") (hu : user ≠ "") (hpw : pw ≠ "")
    (hdb : dbName ≠ "") :
    setupPostgreConfigString (envOf host port user pw dbName) =
        user ++ (":" ++ (pw ++ ("@tcp(" ++
          (host ++ (":" ++ (port ++ (")/" ++ dbName))))))) ∧
      setupPostgreConfigString (fun _ => "") =
        "mysql:password@tcp(localhost:3306)/mysql" ∧
      setupPostgreConfigString (envOf "" "" user "" "") =
        user ++ ":password@tcp(localhost:3306)/mysql" := by
  refine ⟨?_, rfl, ?_⟩
  · simp [setupPostgreConfigString, envOf, hh, hp, hu, hpw, hdb]
  · have h1 : setupPostgreConfigString (envOf "" "" user "" "") =
        user ++ (":" ++ ("password" ++ ("@tcp(" ++ ("localhost" ++
          (":" ++ ("3306" ++ (")/" ++ "mysql"))))))) := by
      simp [setupPostgreConfigString, envOf, hu]
    rw [h1]
    exact congrArg (fun s => user ++ s) (by decide)

/-- Closed witness for C8: concrete nonempty settings, and the default
fallbacks. -/
theorem setupPostgreConfigString_spec_witness :
    setupPostgreConfigString (envOf "h" "1234" "u" "pw" "db") =
        "u" ++ (":" ++ ("pw" ++ ("@tcp(" ++
          ("h" ++ (":" ++ ("1234" ++ (")/" ++ "db"))))))) ∧
      setupPostgreConfigString (fun _ => "") =
        "mysql:password@tcp(localhost:3306)/mysql" ∧
      setupPostgreConfigString (envOf "" "" "u" "" "") =
        "u" ++ ":password@tcp(localhost:3306)/mysql" :=
  setupPostgreConfigString_spec "h" "1234" "u" "pw" "db"
    (by decide) (by decide) (by decide) (by decide) (by decide)

end GopherBounceMySQL
